import Mathlib

/-!
Verification development for the cosmology-theory plotting utility
(cosmosis/postprocessing/cosmology_theory_plots.py).

The Python module is shallowly embedded: pure helpers become Lean
functions, the filesystem becomes an explicit association list from
paths to file lines, exceptions become an error sum type carried in
Except, and the plotting library calls are abstracted to the observable
events the specification talks about (panels created, label styling,
files saved).  Numeric values read from text are represented by exact
rationals; a parsed Python float is a rational, an infinity, or a NaN.
-/

/-- ASCII whitespace recognised by the model of Python's str.strip and
of the whitespace skipping done by float() and int(). -/
def isWs (c : Char) : Bool :=
  c == ' ' || c == '\t' || c == '\n' || c == '\r' || c == '\x0b' || c == '\x0c'

/-- Drop leading whitespace. -/
def skipWs (cs : List Char) : List Char :=
  cs.dropWhile isWs

/-- Modelled from Python's str.strip (ASCII whitespace): drop leading and
trailing whitespace. -/
def pyStrip (cs : List Char) : List Char :=
  ((skipWs cs).reverse.dropWhile isWs).reverse

/-- Numeric value of a decimal digit character. -/
def digitVal (c : Char) : Nat :=
  c.toNat - 48

/-- Continuation of a Python digitpart grammar element: consume
further digits, allowing a single underscore between two digits,
accumulating the value and the count of digits consumed.  The fuel
argument (called with the list length, which bounds the number of
steps) keeps the recursion structural. -/
def digitRest : Nat → List Char → Nat → Nat → Nat × Nat × List Char
  | fuel + 1, '_' :: c :: rest, acc, k =>
    if c.isDigit then digitRest fuel rest (10 * acc + digitVal c) (k + 1)
    else (acc, k, '_' :: c :: rest)
  | fuel + 1, c :: rest, acc, k =>
    if c.isDigit then digitRest fuel rest (10 * acc + digitVal c) (k + 1)
    else (acc, k, c :: rest)
  | _, [], acc, k => (acc, k, [])
  | 0, cs, acc, k => (acc, k, cs)

/-- A Python digitpart: digit (underscore? digit)*.  Returns the value,
the number of digits, and the unconsumed remainder. -/
def digitPart (cs : List Char) : Option (Nat × Nat × List Char) :=
  match cs with
  | c :: rest => if c.isDigit then some (digitRest rest.length rest (digitVal c) 1) else none
  | [] => none

/-- Optional sign; true means negative. -/
def parseSign : List Char → Bool × List Char
  | '+' :: rest => (false, rest)
  | '-' :: rest => (true, rest)
  | cs => (false, cs)

/-- Apply a sign flag to a natural number, giving an integer. -/
def applySign (neg : Bool) (n : Nat) : Int :=
  if neg then -(n : Int) else (n : Int)

/-- Modelled from Python's int() builtin on a string (base 10, ASCII):
optional whitespace, optional sign, a digitpart with optional single
underscores between digits, optional whitespace, and nothing else. -/
def pyIntParse (cs : List Char) : Option Int :=
  match digitPart (parseSign (skipWs cs)).2 with
  | some d =>
    if skipWs d.2.2 = [] then some (applySign (parseSign (skipWs cs)).1 d.1) else none
  | none => none

/-- The exact rational value of a decimal literal: a sign, a mantissa
read from the concatenated integer and fraction digits, the number of
fraction digits, and a base-ten exponent. -/
def decValue (neg : Bool) (mant : Nat) (fdigits : Nat) (e : Int) : Rat :=
  let net : Int := e - (fdigits : Int)
  let q := if 0 ≤ net then mkRat ((mant : Int) * (10 : Int) ^ net.toNat) 1
           else mkRat (mant : Int) ((10 : Nat) ^ (-net).toNat)
  if neg then -q else q

/-- Optional fraction part after the integer digits of a float literal:
a dot followed by an optional digitpart.  Returns the fraction mantissa,
the count of fraction digits, and the remainder. -/
def fracPart : List Char → Nat × Nat × List Char
  | c :: t =>
    if c == '.' then
      match digitPart t with
      | some f => (f.1, f.2.1, f.2.2)
      | none => (0, 0, t)
    else (0, 0, c :: t)
  | [] => (0, 0, [])

/-- Optional exponent part of a float literal: e or E, optional sign,
digitpart.  Consumes nothing when the next character does not start an
exponent. -/
def expPart : List Char → Option (Int × List Char)
  | c :: t =>
    if c == 'e' || c == 'E' then
      let s := parseSign t
      match digitPart s.2 with
      | some d => some (applySign s.1 d.1, d.2.2)
      | none => none
    else some (0, c :: t)
  | [] => some (0, [])

/-- The number form of a Python float literal (after the sign): either
a leading dot with required digits, or digits with optional fraction,
followed by an optional exponent.  Returns the mantissa, the count of
fraction digits, the exponent, and the remainder. -/
def floatNumber (cs : List Char) : Option ((Nat × Nat × Int) × List Char) :=
  match cs with
  | c :: t =>
    if c == '.' then
      match digitPart t with
      | some f =>
        match expPart f.2.2 with
        | some e => some ((f.1, f.2.1, e.1), e.2)
        | none => none
      | none => none
    else
      match digitPart (c :: t) with
      | some d =>
        match expPart (fracPart d.2.2).2.2 with
        | some e =>
          some ((d.1 * 10 ^ (fracPart d.2.2).2.1 + (fracPart d.2.2).1,
                 (fracPart d.2.2).2.1, e.1), e.2)
        | none => none
      | none => none
  | [] => none

/-- Match a case-insensitive keyword, returning the remainder. -/
def kwStrip : List Char → List Char → Option (List Char)
  | input, [] => some input
  | c :: input, k :: kw => if c.toLower == k then kwStrip input kw else none
  | [], _ :: _ => none

/-- A keyword matches when, after consuming it case-insensitively, only
whitespace remains. -/
def kwMatch (input kw : List Char) : Bool :=
  match kwStrip input kw with
  | some r => (skipWs r).isEmpty
  | none => false

/-- Result of Python's float() builtin: a finite value (held exactly as
a rational), a signed infinity, or a NaN. -/
inductive PyFloat
  | finite (q : Rat)
  | inf (neg : Bool)
  | nan
deriving DecidableEq

/-- Modelled from Python's float() builtin on a string (ASCII):
optional whitespace, optional sign, then either a decimal number
(digits, optional fraction, optional exponent, with single underscores
allowed between digits) or one of the keywords inf, infinity, nan
(case-insensitive), then optional whitespace. -/
def pyFloatParse (cs : List Char) : Option PyFloat :=
  match (parseSign (skipWs cs)).2 with
  | [] => none
  | c :: t =>
    if c.isDigit || c == '.' then
      match floatNumber (c :: t) with
      | some v =>
        if skipWs v.2 = [] then
          some (.finite (decValue (parseSign (skipWs cs)).1 v.1.1 v.1.2.1 v.1.2.2))
        else none
      | none => none
    else
      if kwMatch (c :: t) ['i', 'n', 'f', 'i', 'n', 'i', 't', 'y'] then
        some (.inf (parseSign (skipWs cs)).1)
      else if kwMatch (c :: t) ['i', 'n', 'f'] then some (.inf (parseSign (skipWs cs)).1)
      else if kwMatch (c :: t) ['n', 'a', 'n'] then some .nan
      else none

/-- A scalar value held in a values.txt mapping: a float, an int, or
the raw text. -/
inductive PyScalar
  | float (f : PyFloat)
  | int (n : Int)
  | str (s : List Char)
deriving DecidableEq

/-- Plot.try_numeric (cosmology_theory_plots.py lines 89-99): try
float(value), then int(value), else return the value unchanged. -/
def try_numeric (cs : List Char) : PyScalar :=
  match pyFloatParse cs with
  | some f => .float f
  | none =>
    match pyIntParse cs with
    | some n => .int n
    | none => .str cs

/-- Python exceptions distinguished by this module.  In Python 3,
FileNotFoundError is a subclass of OSError and IOError is an alias of
OSError, so both ioError and fileNotFound are caught by an
except-IOError handler; ValueError is not. -/
inductive PyErr
  | ioError (msg : String)
  | fileNotFound (path : String)
  | valueError
deriving DecidableEq

/-- Whether an except-IOError clause catches the error (Python 3
exception hierarchy: FileNotFoundError < OSError = IOError). -/
def PyErr.isIOError : PyErr → Bool
  | .ioError _ => true
  | .fileNotFound _ => true
  | .valueError => false

instance {ε α : Type _} [DecidableEq ε] [DecidableEq α] : DecidableEq (Except ε α) :=
  fun x y =>
  match x, y with
  | .ok a, .ok b =>
    if h : a = b then isTrue (by rw [h]) else isFalse (fun hc => h (Except.ok.inj hc))
  | .ok _, .error _ => isFalse (fun hc => Except.noConfusion hc)
  | .error _, .ok _ => isFalse (fun hc => Except.noConfusion hc)
  | .error a, .error b =>
    if h : a = b then isTrue (by rw [h]) else isFalse (fun hc => h (Except.error.inj hc))

/-- Python's str.split on the separator character equals-sign: cut the
character list at every occurrence of the separator, keeping empty
segments. -/
def splitEq : List Char → List (List Char)
  | [] => [[]]
  | c :: rest =>
    if c == '=' then [] :: splitEq rest
    else
      match splitEq rest with
      | h :: t => (c :: h) :: t
      | [] => [[c]]

/-- Plot.load_values inner loop (lines 104-113), on the lines of an
existing values.txt: strip each line, skip blank lines, split on the
equals sign into exactly a name and a value (any other arity raises
ValueError from the tuple unpacking), strip both, and coerce the value
with try_numeric.  The Python dict is modelled as an association list
in file order. -/
def load_values_lines : List (List Char) → Except PyErr (List (List Char × PyScalar))
  | [] => .ok []
  | l :: rest =>
    let s := pyStrip l
    if s.isEmpty then load_values_lines rest
    else
      match splitEq s with
      | [n, v] =>
        match load_values_lines rest with
        | .ok m => .ok ((pyStrip n, try_numeric (pyStrip v)) :: m)
        | .error e => .error e
      | _ => .error PyErr.valueError

/-- Tokenize a line on runs of whitespace, dropping empty tokens, as
numpy's whitespace-delimited reader does. -/
def splitWsTokens : List Char → List (List Char)
  | [] => []
  | c :: rest =>
    if isWs c then splitWsTokens rest
    else
      match splitWsTokens rest with
      | ts =>
        match rest with
        | [] => [[c]]
        | d :: _ =>
          if isWs d then [c] :: ts
          else
            match ts with
            | h :: t => (c :: h) :: t
            | [] => [[c]]

/-- Parse one data line into numeric tokens; every token must be
accepted by the float parser. -/
def parseRow (cs : List Char) : Option (List PyFloat) :=
  (splitWsTokens cs).mapM pyFloatParse

/-- Modelled from numpy.loadtxt on whitespace-delimited numeric text:
blank lines are skipped, every remaining line must parse as a row of
floats, and all rows must have the same width; otherwise loading
fails.  The result keeps the row structure (1-D versus 2-D shape
inference does not matter for the properties below). -/
def loadtxt (ls : List (List Char)) : Option (List (List PyFloat)) :=
  let rows := ls.filter (fun l => !(pyStrip l).isEmpty)
  match rows.mapM parseRow with
  | some parsed =>
    if parsed.all (fun r => r.length == (parsed.headD []).length) then some parsed
    else none
  | none => none

/-- The saved sample directory: an association list from file paths to
the lines of the file's text. -/
def FS : Type := List (String × List (List Char))

/-- Content of the file at a path, when present. -/
def fsRead (fs : FS) (p : String) : Option (List (List Char)) :=
  match fs.find? (fun e => e.1 == p) with
  | some e => some e.2
  | none => none

/-- Modelled from os.path.exists restricted to the sample directory. -/
def fsExists (fs : FS) (p : String) : Bool :=
  (fsRead fs p).isSome

/-- Plot.file_path (lines 76-77): dirname + "/" + section + "/" + name
+ ".txt". -/
def file_path (dirname sec name : String) : String :=
  dirname ++ "/" ++ sec ++ "/" ++ name ++ ".txt"

/-- The message of the IOError raised by Plot.load_file (line 86),
built from the class name with its trailing Plot removed. -/
def noDataMsg (clsName : String) : String :=
  "Not making plot: " ++ clsName.dropRight 4 ++ " (no data in this sample)"

/-- Plot.load_file (lines 79-86): np.loadtxt on the file at
file_path, with any failure (missing file or unparsable content)
converted to an IOError naming the plot class. -/
def load_file (fs : FS) (dirname sec name clsName : String) :
    Except PyErr (List (List PyFloat)) :=
  match fsRead fs (file_path dirname sec name) with
  | none => .error (.ioError (noDataMsg clsName))
  | some content =>
    match loadtxt content with
    | some a => .ok a
    | none => .error (.ioError (noDataMsg clsName))

/-- The path of a section's values.txt (line 105). -/
def valuesPath (dirname sec : String) : String :=
  dirname ++ "/" ++ sec ++ "/values.txt"

/-- Plot.load_values (lines 104-113): open the section's values.txt
(a missing file raises FileNotFoundError from open) and parse its
lines with load_values_lines. -/
def load_values (fs : FS) (dirname sec : String) :
    Except PyErr (List (List Char × PyScalar)) :=
  match fsRead fs (valuesPath dirname sec) with
  | none => .error (.fileNotFound (valuesPath dirname sec))
  | some ls => load_values_lines ls

/-- MatterPowerPlot.plot_section line 229: if (p lt 0).all(): p *= -1.
Negate the power-spectrum array exactly when every entry is strictly
negative. -/
def matterPowerSignFlip (p : List Rat) : List Rat :=
  if p.all (fun x => decide (x < 0)) then p.map (fun x => -x) else p

/-- ShearSpectrumPlot.plot_section lines 313-314: if all(cl le 0):
cl *= -1.  Negate the angular power spectrum exactly when every entry
is non-positive. -/
def shearClSignFlip (cl : List Rat) : List Rat :=
  if cl.all (fun x => decide (x ≤ 0)) then cl.map (fun x => -x) else cl

/-- Plot.__init__ (lines 55-74): the output file path.  The prefix is
joined with an underscore when it is non-empty (Python string
truthiness), and the path is outdir + "/" + prefix + filename + "." +
suffix. -/
def outfileFor (outdir pfx filename suffix : String) : String :=
  outdir ++ "/" ++ (if pfx = "" then pfx else pfx ++ "_") ++ filename ++ "." ++ suffix

/-- The bin-counting loop of the tomographic plots (lines 291-298,
350-357, 396-404): for i in range(1, 100), count while the diagonal
bin file for i exists, stopping at the first missing one.  The fuel
argument enumerates the remaining loop iterations. -/
def countBinsAux : Nat → Nat → (Nat → Bool) → Nat
  | 0, acc, _ => acc
  | fuel + 1, acc, present =>
    if present (acc + 1) then countBinsAux fuel (acc + 1) present else acc

/-- Number of tomographic bins detected, scanning i = 1 .. 99. -/
def countBins (present : Nat → Bool) : Nat :=
  countBinsAux 99 0 present

/-- One row of the triangular panel grid: pairs (i, j) for j = 1 .. i. -/
def panelRow (i : Nat) : List (Nat × Nat) :=
  (List.range i).map (fun j0 => (i, j0 + 1))

/-- The lower-triangular pairs (i, j), 1 le j le i le nbin, in the
order the nested loops of plot_section visit them (lines 304-305). -/
def panelPairs : Nat → List (Nat × Nat)
  | 0 => []
  | n + 1 => panelPairs n ++ panelRow (n + 1)

/-- Styling of one sub-panel (lines 317-325): the corner panel (1, 1)
gets the axis labels; every other panel has its tick labels removed. -/
structure Panel where
  i : Nat
  j : Nat
  axisLabels : Bool
  ticksRemoved : Bool
deriving DecidableEq

/-- The panel created for pair (i, j). -/
def panelFor (i j : Nat) : Panel :=
  if i == 1 && j == 1 then ⟨i, j, true, false⟩ else ⟨i, j, false, true⟩

/-- All panels created by a triangular plot_section with nbin bins. -/
def sectionPanels (nbin : Nat) : List Panel :=
  (panelPairs nbin).map (fun p => panelFor p.1 p.2)

/-- Whether a plot routine returned normally. -/
def isOkRun : Except PyErr Unit → Bool
  | .ok _ => true
  | .error _ => false

/-- Plot.make (lines 127-132) for one descriptor: run the plot routine
and, when it returns normally, save exactly one file at the
descriptor's output path.  The result lists the files written. -/
def runOne : Except PyErr Unit × String → List String
  | (.ok _, out) => [out]
  | (.error _, _) => []

/-- The main loop (lines 468-474): attempt every descriptor in order;
an IOError from a descriptor is printed and the loop continues (its
file is never written); any other exception propagates and aborts the
batch.  The ok result lists the files written, in order. -/
def driver : List (Except PyErr Unit × String) → Except PyErr (List String)
  | [] => .ok []
  | (r, out) :: rest =>
    match r with
    | .ok _ =>
      match driver rest with
      | .ok l => .ok (out :: l)
      | .error e => .error e
    | .error e => if e.isIOError then driver rest else .error e

/-- Diagonal bin file name bin_i_j (lines 293-294, 352-353). -/
def binName (i j : Nat) : String :=
  "bin_" ++ toString i ++ "_" ++ toString j

/-- The bin-detection predicate of ShearCorrelationPlusPlot.plot
(lines 350-357): the diagonal file bin_i_i of section shear_xi_plus
exists. -/
def shearXiPlusBinPresent (fs : FS) (dirname : String) (i : Nat) : Bool :=
  fsExists fs (file_path dirname "shear_xi_plus" (binName i i))

/-- Load every bin file the panel loop touches, left to right; the
first failure raises. -/
def loadPanelBins (fs : FS) (dirname sec clsName : String) :
    List (Nat × Nat) → Except PyErr Unit
  | [] => .ok ()
  | p :: rest =>
    match load_file fs dirname sec (binName p.1 p.2) clsName with
    | .ok _ => loadPanelBins fs dirname sec clsName rest
    | .error e => .error e

/-- ShearCorrelationPlusPlot.plot (lines 348-388): count the bins; the
statement at lines 358-359 constructs an IOError but does not raise it,
so a zero bin count has no effect; load theta; then loop over the
triangular panels loading each bin file. -/
def shearXiPlusPlot (fs : FS) (dirname : String) : Except PyErr Unit :=
  let nbin := countBins (shearXiPlusBinPresent fs dirname)
  match load_file fs dirname "shear_xi_plus" "theta" "ShearCorrelationPlusPlot" with
  | .error e => .error e
  | .ok _ => loadPanelBins fs dirname "shear_xi_plus" "ShearCorrelationPlusPlot" (panelPairs nbin)

/-- Plot.make specialised to ShearCorrelationPlusPlot: run the plot and
save its single output file on success. -/
def shearXiPlusMake (fs : FS) (dirname outdir pfx suffix : String) :
    Except PyErr (List String) :=
  match shearXiPlusPlot fs dirname with
  | .ok _ => .ok [outfileFor outdir pfx "shear_xi_plus" suffix]
  | .error e => .error e

/-- The classes created when the module is imported, in source order,
with their direct base classes.  Obj stands for the Python object
root (the effective base of Plot after the with_metaclass wrapper). -/
inductive PlotCls
  | Obj
  | Plot
  | DistancePlot
  | AngularDiameterDistancePlot
  | LuminosityDistancePlot
  | ComovingDistancePlot
  | HubblePlot
  | DistanceModulusPlot
  | CMBSpectrumPlot
  | TTPlot
  | EEPlot
  | TEPlot
  | BBPlot
  | GrandPlot
  | MatterPowerPlot
  | ShearSpectrumPlot
  | MatterPower2D
  | ShearCorrelationPlusPlot
  | ShearCorrelationMinusPlot
  | GrowthPlot
  | LuminositySlopePlot
deriving DecidableEq, Fintype

/-- The class-creation events of the module, in the order Python
executes the class statements: each entry is the new class and its
direct bases. -/
def classDefs : List (PlotCls × List PlotCls) :=
  [(.Plot, [.Obj]),
   (.DistancePlot, [.Plot]),
   (.AngularDiameterDistancePlot, [.DistancePlot]),
   (.LuminosityDistancePlot, [.DistancePlot]),
   (.ComovingDistancePlot, [.DistancePlot]),
   (.HubblePlot, [.DistancePlot]),
   (.DistanceModulusPlot, [.DistancePlot]),
   (.CMBSpectrumPlot, [.Plot]),
   (.TTPlot, [.CMBSpectrumPlot]),
   (.EEPlot, [.CMBSpectrumPlot]),
   (.TEPlot, [.CMBSpectrumPlot]),
   (.BBPlot, [.CMBSpectrumPlot]),
   (.GrandPlot, [.Plot]),
   (.MatterPowerPlot, [.Plot]),
   (.ShearSpectrumPlot, [.Plot]),
   (.MatterPower2D, [.ShearSpectrumPlot]),
   (.ShearCorrelationPlusPlot, [.Plot]),
   (.ShearCorrelationMinusPlot, [.Plot]),
   (.GrowthPlot, [.Plot]),
   (.LuminositySlopePlot, [.Plot])]

/-- RegisteredPlot.__new__ (lines 42-48) for one class creation: add
the new class to the registry, then remove its bases.  The Python set
is modelled as a duplicate-free list. -/
def registryStep (reg : List PlotCls) (e : PlotCls × List PlotCls) : List PlotCls :=
  (if e.1 ∈ reg then reg else reg ++ [e.1]).filter (fun c => decide (c ∉ e.2))

/-- The registry after all class statements have executed; the main
loop iterates over exactly this set (line 470). -/
def finalRegistry : List PlotCls :=
  classDefs.foldl registryStep []

/-- Whether a class appears as a direct base of some class of the
module: such a class is not a leaf of the hierarchy. -/
def isBaseCls (c : PlotCls) : Bool :=
  classDefs.any (fun e => decide (c ∈ e.2))

/-- Whether the main loop survives a descriptor: the routine returned
normally or raised an error the except-IOError clause catches. -/
def runSkippable : Except PyErr Unit → Bool
  | .ok _ => true
  | .error e => e.isIOError

/-- A list whose whitespace-drop is empty has a whitespace head and an
all-whitespace tail. -/
theorem skipWs_nil_head {a : Char} {b : List Char} (h : skipWs (a :: b) = []) :
    isWs a = true ∧ skipWs b = [] := by
  by_cases ha : isWs a = true
  · rw [skipWs, List.dropWhile_cons, if_pos ha] at h
    exact ⟨ha, h⟩
  · rw [skipWs, List.dropWhile_cons, if_neg ha] at h
    exact absurd h (by simp)

/-- Whitespace characters are not a dot or an exponent marker. -/
theorem isWs_ne_special {a : Char} (h : isWs a = true) :
    (a == '.') = false ∧ (a == 'e') = false ∧ (a == 'E') = false := by
  simp only [isWs, Bool.or_eq_true, beq_iff_eq] at h
  rcases h with ((((h | h) | h) | h) | h) | h <;> subst h <;> exact ⟨rfl, rfl, rfl⟩

/-- On an all-whitespace remainder the fraction parser consumes
nothing. -/
theorem fracPart_ws {r : List Char} (hr : skipWs r = []) : fracPart r = (0, 0, r) := by
  cases r with
  | nil => rfl
  | cons a b =>
    have ha := (skipWs_nil_head hr).1
    have hd := (isWs_ne_special ha).1
    simp [fracPart, hd]

/-- On an all-whitespace remainder the exponent parser consumes
nothing. -/
theorem expPart_ws {r : List Char} (hr : skipWs r = []) : expPart r = some (0, r) := by
  cases r with
  | nil => rfl
  | cons a b =>
    have ha := (skipWs_nil_head hr).1
    have he := (isWs_ne_special ha).2.1
    have hE := (isWs_ne_special ha).2.2
    simp [expPart, he, hE]

/-- Every string the int parser accepts is accepted by the float
parser: the successful int parse pins the shape to sign, digits and
whitespace, on which the float grammar also succeeds. -/
theorem pyIntParse_implies_float {cs : List Char} {n : Int}
    (h : pyIntParse cs = some n) : ∃ f, pyFloatParse cs = some f := by
  unfold pyIntParse at h
  rcases hdp : digitPart (parseSign (skipWs cs)).2 with _ | d
  · simp only [hdp] at h
    exact absurd h (by simp)
  · simp only [hdp] at h
    by_cases hr : skipWs d.2.2 = []
    · rcases hs2 : (parseSign (skipWs cs)).2 with _ | ⟨c, t⟩
      · rw [hs2] at hdp
        exact absurd hdp (by simp [digitPart])
      · rw [hs2] at hdp
        by_cases hc : c.isDigit = true
        · have hcd : (c == '.') = false := by
            simp only [beq_eq_false_iff_ne, ne_eq]
            intro hEq
            rw [hEq] at hc
            exact absurd hc (by decide)
          refine ⟨.finite (decValue (parseSign (skipWs cs)).1
            (d.1 * 10 ^ (fracPart d.2.2).2.1 + (fracPart d.2.2).1)
            (fracPart d.2.2).2.1 0), ?_⟩
          unfold pyFloatParse
          rw [hs2]
          simp only [hc, Bool.true_or, if_pos, floatNumber, hcd, Bool.false_eq_true,
            if_false, hdp, fracPart_ws hr, expPart_ws hr, hr, if_pos]
        · rw [digitPart, if_neg hc] at hdp
          exact absurd hdp (by simp)
    · simp only [if_neg hr] at h
      exact absurd h (by simp)

/-- Splitting never produces the empty list of segments. -/
theorem splitEq_ne_nil (cs : List Char) : splitEq cs ≠ [] := by
  cases cs with
  | nil => simp [splitEq]
  | cons c rest =>
    rw [splitEq]
    by_cases hc : (c == '=') = true
    · simp [hc]
    · simp only [hc, if_false]
      rcases hs : splitEq rest with _ | ⟨h, t⟩
      · simp
      · simp

/-- The number of split segments is the separator count plus one. -/
theorem splitEq_length (cs : List Char) :
    (splitEq cs).length = cs.count '=' + 1 := by
  induction cs with
  | nil => simp [splitEq]
  | cons c rest ih =>
    rw [splitEq]
    by_cases hc : (c == '=') = true
    · have hc2 : c = '=' := by simpa [beq_iff_eq] using hc
      simp [hc, hc2, List.count_cons, ih]
    · have hc2 : ¬c = '=' := by simpa [beq_iff_eq] using hc
      rcases hs : splitEq rest with _ | ⟨h, t⟩
      · exact absurd hs (splitEq_ne_nil rest)
      · have := ih
        rw [hs] at this
        simp only [hc, if_false, List.length_cons, List.count_cons]
        simp only [List.length_cons] at this
        simp [hc2, this]

/-- A bad line (non-blank, not exactly one separator) anywhere in the
file makes the whole load fail with ValueError. -/
theorem load_values_lines_bad {ls : List (List Char)} {line : List Char}
    (h1 : line ∈ ls) (h2 : (pyStrip line).isEmpty = false)
    (h3 : (pyStrip line).count '=' ≠ 1) :
    load_values_lines ls = .error PyErr.valueError := by
  induction ls with
  | nil => cases h1
  | cons hd tl ih =>
    rcases List.mem_cons.mp h1 with hEq | hMem
    · subst hEq
      rw [load_values_lines]
      simp only [h2, Bool.false_eq_true, if_false]
      rcases hs : splitEq (pyStrip line) with _ | ⟨n, t⟩
      · exact absurd hs (splitEq_ne_nil _)
      · rcases t with _ | ⟨v, t2⟩
        · rfl
        · rcases t2 with _ | ⟨w, t3⟩
          · exfalso
            have hl := splitEq_length (pyStrip line)
            rw [hs] at hl
            simp at hl
            exact h3 (by omega)
          · rfl
    · have htl := ih hMem
      rw [load_values_lines]
      by_cases hb : (pyStrip hd).isEmpty = true
      · simpa [hb] using htl
      · simp only [Bool.not_eq_true] at hb
        simp only [hb, Bool.false_eq_true, if_false]
        rcases hs : splitEq (pyStrip hd) with _ | ⟨n, t⟩
        · exact absurd hs (splitEq_ne_nil _)
        · rcases t with _ | ⟨v, t2⟩
          · rfl
          · rcases t2 with _ | ⟨w, t3⟩
            · rw [htl]
            · rfl

/-- Every value produced by load_values_lines is a try_numeric result. -/
theorem load_values_lines_values {ls : List (List Char)}
    {m : List (List Char × PyScalar)} (h : load_values_lines ls = .ok m) :
    ∀ p ∈ m, ∃ v : List Char, p.2 = try_numeric v := by
  induction ls generalizing m with
  | nil =>
    rw [load_values_lines] at h
    cases h
    intro p hp
    cases hp
  | cons hd tl ih =>
    rw [load_values_lines] at h
    by_cases hb : (pyStrip hd).isEmpty = true
    · rw [if_pos hb] at h
      exact ih h
    · simp only [Bool.not_eq_true] at hb
      rw [hb] at h
      simp only [Bool.false_eq_true, if_false] at h
      rcases hs : splitEq (pyStrip hd) with _ | ⟨n, t⟩
      · exact absurd hs (splitEq_ne_nil _)
      · rw [hs] at h
        rcases t with _ | ⟨v, t2⟩
        · cases h
        · rcases t2 with _ | ⟨w, t3⟩
          · rcases htl : load_values_lines tl with e | m2
            · rw [htl] at h
              cases h
            · rw [htl] at h
              cases h
              intro p hp
              rcases List.mem_cons.mp hp with hph | hpt
              · subst hph
                exact ⟨pyStrip v, rfl⟩
              · exact ih htl p hpt
          · cases h

/-- The bin-counting loop invariant: with the loop positioned after
acc accepted bins and fuel iterations left to reach index 99, a
presence predicate that holds exactly up to N yields N. -/
theorem countBinsAux_spec (present : Nat → Bool) (N : Nat)
    (hp : ∀ i, 1 ≤ i → i ≤ 99 → present i = decide (i ≤ N)) :
    ∀ fuel acc, acc + fuel = 99 → acc ≤ N → N ≤ 99 →
    countBinsAux fuel acc present = N := by
  intro fuel
  induction fuel with
  | zero =>
    intro acc hsum hacc hN
    have : acc = 99 := by omega
    rw [countBinsAux]
    omega
  | succ fuel ih =>
    intro acc hsum hacc hN
    rw [countBinsAux]
    rcases Nat.lt_or_ge acc N with hlt | hge
    · have hpp : present (acc + 1) = true := by
        rw [hp (acc + 1) (by omega) (by omega)]
        simp
        omega
      rw [hpp]
      simp only [if_true]
      exact ih (acc + 1) (by omega) (by omega) hN
    · have hEq : acc = N := by omega
      subst hEq
      have hpp : present (acc + 1) = false := by
        rw [hp (acc + 1) (by omega) (by omega)]
        simp
      rw [hpp]
      simp

/-- countBins returns exactly the number of consecutive present bins. -/
theorem countBins_spec (present : Nat → Bool) (N : Nat) (hN : N ≤ 99)
    (hp : ∀ i, 1 ≤ i → i ≤ 99 → present i = decide (i ≤ N)) :
    countBins present = N :=
  countBinsAux_spec present N hp 99 0 rfl (Nat.zero_le N) hN

/-- Twice the panel count equals nbin * (nbin + 1). -/
theorem panelPairs_length (n : Nat) :
    2 * (panelPairs n).length = n * (n + 1) := by
  induction n with
  | zero => rfl
  | succ n ih =>
    rw [panelPairs, List.length_append]
    have hrow : (panelRow (n + 1)).length = n + 1 := by
      simp [panelRow]
    rw [hrow]
    calc 2 * ((panelPairs n).length + (n + 1))
        = 2 * (panelPairs n).length + 2 * (n + 1) := by ring
      _ = n * (n + 1) + 2 * (n + 1) := by rw [ih]
      _ = (n + 1) * (n + 1 + 1) := by ring

/-- The panel count in closed form. -/
theorem panelPairs_length_div (n : Nat) :
    (panelPairs n).length = n * (n + 1) / 2 := by
  have h := panelPairs_length n
  omega

/-- Membership in one panel row. -/
theorem panelRow_mem (r i j : Nat) :
    (i, j) ∈ panelRow r ↔ i = r ∧ 1 ≤ j ∧ j ≤ r := by
  simp only [panelRow, List.mem_map, List.mem_range, Prod.mk.injEq]
  constructor
  · rintro ⟨j0, hj0, hi, hj⟩
    omega
  · rintro ⟨hi, h1, hj⟩
    exact ⟨j - 1, by omega, by omega, by omega⟩

/-- The panel pairs are exactly the lower-triangular index pairs. -/
theorem panelPairs_mem (n i j : Nat) :
    (i, j) ∈ panelPairs n ↔ 1 ≤ j ∧ j ≤ i ∧ i ≤ n := by
  induction n with
  | zero =>
    simp only [panelPairs, List.not_mem_nil, false_iff]
    omega
  | succ n ih =>
    rw [panelPairs, List.mem_append, ih, panelRow_mem]
    omega

/-- Every pair appears once: the rows are duplicate-free and pairwise
disjoint. -/
theorem panelPairs_nodup (n : Nat) : (panelPairs n).Nodup := by
  induction n with
  | zero => simp [panelPairs]
  | succ n ih =>
    rw [panelPairs]
    refine List.Nodup.append ih ?_ ?_
    · refine List.Nodup.map ?_ (List.nodup_range (n + 1))
      intro a b hab
      simpa using congrArg Prod.snd hab
    · intro x hx hx2
      rcases x with ⟨i, j⟩
      have h1 := (panelPairs_mem n i j).mp hx
      have h2 := (panelRow_mem (n + 1) i j).mp hx2
      omega

/-- When the driver finishes normally, the files written are exactly
the output paths of the descriptors whose routines returned normally,
in order. -/
theorem driver_ok_saves :
    ∀ (items : List (Except PyErr Unit × String)) (l : List String),
    driver items = .ok l →
    l = (items.filter (fun x => isOkRun x.1)).map Prod.snd := by
  intro items
  induction items with
  | nil =>
    intro l h
    rw [driver] at h
    cases h
    rfl
  | cons hd tl ih =>
    intro l h
    rcases hd with ⟨r, out⟩
    rcases r with e | u
    · rw [driver] at h
      by_cases hio : e.isIOError = true
      · rw [if_pos hio] at h
        simp only [List.filter_cons, isOkRun]
        exact ih l h
      · rw [if_neg hio] at h
        cases h
    · rw [driver] at h
      rcases htl : driver tl with e2 | l2
      · rw [htl] at h
        cases h
      · rw [htl] at h
        cases h
        rw [ih l2 htl]
        simp [List.filter_cons, isOkRun]

/-- When every descriptor either succeeds or raises a caught IOError,
the driver finishes normally. -/
theorem driver_total :
    ∀ (items : List (Except PyErr Unit × String)),
    (∀ x ∈ items, runSkippable x.1 = true) →
    ∃ l, driver items = .ok l := by
  intro items
  induction items with
  | nil =>
    intro _
    exact ⟨[], rfl⟩
  | cons hd tl ih =>
    intro h
    rcases ih (fun x hx => h x (List.mem_cons_of_mem hd hx)) with ⟨l, hl⟩
    rcases hd with ⟨r, out⟩
    rcases r with e | u
    · have he : e.isIOError = true := h (.error e, out) (List.mem_cons_self _ _)
      exact ⟨l, by rw [driver, if_pos he]; exact hl⟩
    · exact ⟨out :: l, by rw [driver, hl]⟩

/-- C1: the claim states that a plot output file is created only when
every required file exists, in particular that the tomographic plots
write nothing when the shared theta file exists but no bin files do.
The code violates this: ShearCorrelationPlusPlot.plot constructs an
IOError at lines 358-359 without raising it, so with theta.txt present
and parseable and no bin_i_j files the run completes and the output
file is written anyway. -/
theorem shear_xi_plus_saves_without_bin_files :
    shearXiPlusMake
      [(("dir/shear_xi_plus/theta.txt" : String), [("1.0").toList, ("2.0").toList])]
      "dir" "." "" "png" = .ok ["./shear_xi_plus.png"]
  ∧ shearXiPlusBinPresent
      [(("dir/shear_xi_plus/theta.txt" : String), [("1.0").toList, ("2.0").toList])]
      "dir" 1 = false := by
  exact ⟨by decide, by decide⟩

/-- C2 counterexample: the claim says every power-spectrum routine
negates when all values are non-positive, but MatterPowerPlot tests
strict negativity, so the all-non-positive array with a zero entry is
not negated. -/
theorem matter_power_nonpositive_not_flipped :
    ([-1, 0] : List Rat).all (fun x => decide (x ≤ 0)) = true
  ∧ matterPowerSignFlip [-1, 0] = [-1, 0]
  ∧ ¬ matterPowerSignFlip [-1, 0] = ([-1, 0] : List Rat).map (fun x => -x) := by
  exact ⟨by decide, by decide, by decide⟩

/-- C2 amended: MatterPowerPlot negates exactly when all entries are
strictly negative, ShearSpectrumPlot when all are non-positive; for an
all-negative array both negate and the plotted array is all-positive. -/
theorem sign_flip_rules : ∀ (p cl : List Rat),
    ((∀ x ∈ p, x < 0) → matterPowerSignFlip p = p.map (fun x => -x))
  ∧ ((∀ x ∈ cl, x ≤ 0) → shearClSignFlip cl = cl.map (fun x => -x))
  ∧ ((∀ x ∈ p, x < 0) → ∀ y ∈ matterPowerSignFlip p, 0 < y)
  ∧ ((∀ x ∈ cl, x < 0) → ∀ y ∈ shearClSignFlip cl, 0 < y) := by
  intro p cl
  have hm : (∀ x ∈ p, x < 0) → matterPowerSignFlip p = p.map (fun x => -x) := by
    intro h
    have hall : (p.all (fun x => decide (x < 0))) = true := by
      rw [List.all_eq_true]
      intro x hx
      exact decide_eq_true (h x hx)
    unfold matterPowerSignFlip
    rw [if_pos hall]
  have hs : (∀ x ∈ cl, x ≤ 0) → shearClSignFlip cl = cl.map (fun x => -x) := by
    intro h
    have hall : (cl.all (fun x => decide (x ≤ 0))) = true := by
      rw [List.all_eq_true]
      intro x hx
      exact decide_eq_true (h x hx)
    unfold shearClSignFlip
    rw [if_pos hall]
  refine ⟨hm, hs, ?_, ?_⟩
  · intro h y hy
    rw [hm h] at hy
    rcases List.mem_map.mp hy with ⟨x, hx, rfl⟩
    exact neg_pos.mpr (h x hx)
  · intro h y hy
    rw [hs (fun x hx => le_of_lt (h x hx))] at hy
    rcases List.mem_map.mp hy with ⟨x, hx, rfl⟩
    exact neg_pos.mpr (h x hx)

/-- Witness for C2's amended theorem at concrete arrays. -/
theorem sign_flip_rules_witness :
    matterPowerSignFlip [-1] = ([-1] : List Rat).map (fun x => -x)
  ∧ shearClSignFlip [-2, 0] = ([-2, 0] : List Rat).map (fun x => -x) :=
  ⟨(sign_flip_rules [-1] [-2, 0]).1 (by decide),
   (sign_flip_rules [-1] [-2, 0]).2.1 (by decide)⟩

/-- C3: load_values on an existing values.txt splits non-blank lines
on the equals sign, strips both sides, and coerces values with
try_numeric: numeric literals become floats, other text stays text. -/
theorem load_values_parsing_examples :
    load_values
      [((valuesPath "dir" "cosmological_parameters"),
        [("H0 = 70.0").toList, ("").toList, ("omega_m=0.3").toList])]
      "dir" "cosmological_parameters"
      = .ok [(("H0").toList, .float (.finite 70)),
             (("omega_m").toList, .float (.finite (mkRat 3 10)))]
  ∧ load_values [((valuesPath "dir" "sec"), [("name = some_text").toList])] "dir" "sec"
      = .ok [(("name").toList, .str ("some_text").toList)] := by
  exact ⟨by decide, by decide⟩

/-- C4: with N bins detected (diagonal bin files present exactly for
1 .. N), the triangular renderer counts N bins and creates exactly
N * (N + 1) / 2 sub-panels, one per lower-triangular pair, with axis
labels only on the corner panel (1, 1) and tick labels removed
everywhere else. -/
theorem triangular_panel_layout : ∀ (present : Nat → Bool) (N : Nat),
    N ≤ 99 → (∀ i, 1 ≤ i → i ≤ 99 → present i = decide (i ≤ N)) →
    countBins present = N
  ∧ (sectionPanels N).length = N * (N + 1) / 2
  ∧ (∀ i j, (i, j) ∈ panelPairs N ↔ 1 ≤ j ∧ j ≤ i ∧ i ≤ N)
  ∧ (panelPairs N).Nodup
  ∧ (∀ p ∈ sectionPanels N,
      (p.axisLabels = true ↔ (p.i = 1 ∧ p.j = 1))
      ∧ (p.ticksRemoved = true ↔ ¬(p.i = 1 ∧ p.j = 1))) := by
  intro present N hN hp
  refine ⟨countBins_spec present N hN hp, ?_,
    fun i j => panelPairs_mem N i j, panelPairs_nodup N, ?_⟩
  · rw [sectionPanels, List.length_map]
    exact panelPairs_length_div N
  · intro pq hpq
    rcases List.mem_map.mp hpq with ⟨⟨i, j⟩, hmem, rfl⟩
    by_cases hc : (i == 1 && j == 1) = true
    · have hij : i = 1 ∧ j = 1 := by
        rcases (Bool.and_eq_true _ _).mp hc with ⟨ha, hb⟩
        exact ⟨by simpa [beq_iff_eq] using ha, by simpa [beq_iff_eq] using hb⟩
      simp [panelFor, hc, hij]
    · have hne : ¬(i = 1 ∧ j = 1) := by
        intro hij
        rcases hij with ⟨ha, hb⟩
        subst ha
        subst hb
        exact hc rfl
      simp [panelFor, hc, hne]

/-- Witness for C4 at the three-bin example. -/
theorem triangular_panel_layout_witness :
    countBins (fun i => decide (i ≤ 3)) = 3
  ∧ (sectionPanels 3).length = 3 * (3 + 1) / 2 :=
  ⟨(triangular_panel_layout (fun i => decide (i ≤ 3)) 3 (by decide) (fun _ _ _ => rfl)).1,
   (triangular_panel_layout (fun i => decide (i ≤ 3)) 3 (by decide) (fun _ _ _ => rfl)).2.1⟩

/-- C5: a successful render writes exactly one file, whose path is
outdir + "/" + prefix + "_" + filename + "." + suffix for a non-empty
prefix and outdir + "/" + filename + "." + suffix for the empty
prefix. -/
theorem output_file_naming : ∀ outdir pfx filename suffix : String,
    runOne (Except.ok (), outfileFor outdir pfx filename suffix)
      = [outfileFor outdir pfx filename suffix]
  ∧ (pfx = "" →
      outfileFor outdir pfx filename suffix = outdir ++ "/" ++ filename ++ "." ++ suffix)
  ∧ (pfx ≠ "" →
      outfileFor outdir pfx filename suffix
        = outdir ++ "/" ++ pfx ++ "_" ++ filename ++ "." ++ suffix) := by
  intro outdir pfx filename suffix
  refine ⟨rfl, ?_, ?_⟩
  · intro h
    subst h
    simp [outfileFor]
  · intro h
    unfold outfileFor
    rw [if_neg h]
    simp [String.append_assoc]

/-- Witness for C5 at concrete names, both prefix cases. -/
theorem output_file_naming_witness :
    outfileFor "." "" "hubble" "png" = "." ++ "/" ++ "hubble" ++ "." ++ "png"
  ∧ outfileFor "out" "pre" "grand" "pdf"
      = "out" ++ "/" ++ "pre" ++ "_" ++ "grand" ++ "." ++ "pdf" :=
  ⟨(output_file_naming "." "" "hubble" "png").2.1 rfl,
   (output_file_naming "out" "pre" "grand" "pdf").2.2 (by decide)⟩

/-- C6: an IOError from a plot routine is caught: the driver skips the
descriptor (its file is never written) and continues; the files
written are exactly those of the successful descriptors; a non-IOError
propagates and aborts the batch; when every descriptor succeeds or
raises a caught IOError the run completes normally. -/
theorem driver_error_handling :
    (∀ msg out rest,
      driver ((Except.error (PyErr.ioError msg), out) :: rest) = driver rest)
  ∧ (∀ items l, driver items = Except.ok l →
      l = (items.filter (fun x => isOkRun x.1)).map Prod.snd)
  ∧ (∀ e out rest, PyErr.isIOError e = false →
      driver ((Except.error e, out) :: rest) = Except.error e)
  ∧ (∀ items, (∀ x ∈ items, runSkippable x.1 = true) →
      ∃ l, driver items = Except.ok l) := by
  refine ⟨?_, driver_ok_saves, ?_, driver_total⟩
  · intro msg out rest
    simp [driver, PyErr.isIOError]
  · intro e out rest h
    simp [driver, h]

/-- Witness for C6: a skipped IOError descriptor, a completed batch
with a skip, and an aborting ValueError. -/
theorem driver_error_handling_witness :
    driver [(Except.error (PyErr.ioError "m"), "skipped"), (Except.ok (), "saved")]
      = driver [(Except.ok (), "saved")]
  ∧ (∃ l, driver [(Except.ok (), "saved"),
        (Except.error (PyErr.ioError "m"), "skipped")] = Except.ok l)
  ∧ driver [(Except.error PyErr.valueError, "aborted")] = Except.error PyErr.valueError :=
  ⟨driver_error_handling.1 "m" "skipped" [(Except.ok (), "saved")],
   driver_error_handling.2.2.2
     [(Except.ok (), "saved"), (Except.error (PyErr.ioError "m"), "skipped")] (by decide),
   driver_error_handling.2.2.1 PyErr.valueError "aborted" [] (by decide)⟩

/-- C7: load_file fails with an IOError (the kind the driver catches
and skips) whenever the array file is missing or unparsable, and
load_values fails with a FileNotFoundError when values.txt is absent
(also an IOError subclass in Python 3). -/
theorem loader_error_kinds : ∀ (fs : FS) (dirname sec name clsName : String),
    (fsRead fs (file_path dirname sec name) = none →
      load_file fs dirname sec name clsName
        = Except.error (PyErr.ioError (noDataMsg clsName)))
  ∧ (∀ content, fsRead fs (file_path dirname sec name) = some content →
      loadtxt content = none →
      load_file fs dirname sec name clsName
        = Except.error (PyErr.ioError (noDataMsg clsName)))
  ∧ PyErr.isIOError (PyErr.ioError (noDataMsg clsName)) = true
  ∧ (∀ out rest,
      driver ((Except.error (PyErr.ioError (noDataMsg clsName)), out) :: rest)
        = driver rest)
  ∧ (fsRead fs (valuesPath dirname sec) = none →
      load_values fs dirname sec
        = Except.error (PyErr.fileNotFound (valuesPath dirname sec)))
  ∧ PyErr.isIOError (PyErr.fileNotFound (valuesPath dirname sec)) = true := by
  intro fs dirname sec name clsName
  refine ⟨?_, ?_, rfl, ?_, ?_, rfl⟩
  · intro h
    unfold load_file
    rw [h]
  · intro content h1 h2
    unfold load_file
    rw [h1]
    simp only [h2]
  · intro out rest
    simp [driver, PyErr.isIOError]
  · intro h
    unfold load_values
    rw [h]

/-- Witness for C7: a missing file, a malformed file, and a missing
values.txt. -/
theorem loader_error_kinds_witness :
    load_file [] "d" "s" "n" "GrowthPlot"
      = Except.error (PyErr.ioError (noDataMsg "GrowthPlot"))
  ∧ load_file [((file_path "d" "s" "n"), [("abc").toList])] "d" "s" "n" "GrowthPlot"
      = Except.error (PyErr.ioError (noDataMsg "GrowthPlot"))
  ∧ load_values [] "d" "s" = Except.error (PyErr.fileNotFound (valuesPath "d" "s")) :=
  ⟨(loader_error_kinds [] "d" "s" "n" "GrowthPlot").1 (by decide),
   (loader_error_kinds [((file_path "d" "s" "n"), [("abc").toList])] "d" "s" "n"
     "GrowthPlot").2.1 [("abc").toList] (by decide) (by decide),
   (loader_error_kinds [] "d" "s" "n" "GrowthPlot").2.2.2.2.1 (by decide)⟩

/-- C8: try_numeric never returns through its integer branch, because
every string int() accepts is also accepted by float(); consequently
no value in a mapping returned by load_values_lines is an integer. -/
theorem try_numeric_int_branch_unreachable :
    (∀ cs : List Char,
      (∃ f, try_numeric cs = PyScalar.float f) ∨ try_numeric cs = PyScalar.str cs)
  ∧ (∀ (ls : List (List Char)) (m : List (List Char × PyScalar)),
      load_values_lines ls = Except.ok m → ∀ p ∈ m, ∀ n : Int, p.2 ≠ PyScalar.int n) := by
  have h1 : ∀ cs : List Char,
      (∃ f, try_numeric cs = PyScalar.float f) ∨ try_numeric cs = PyScalar.str cs := by
    intro cs
    rcases hf : pyFloatParse cs with _ | f
    · rcases hi : pyIntParse cs with _ | n
      · right
        simp only [try_numeric, hf, hi]
      · rcases pyIntParse_implies_float hi with ⟨f, hf2⟩
        rw [hf2] at hf
        cases hf
    · left
      exact ⟨f, by simp only [try_numeric, hf]⟩
  refine ⟨h1, ?_⟩
  intro ls m hm p hp n
  rcases load_values_lines_values hm p hp with ⟨v, hv⟩
  rw [hv]
  rcases h1 v with ⟨f, hf⟩ | hs
  · rw [hf]
    exact fun hc => PyScalar.noConfusion hc
  · rw [hs]
    exact fun hc => PyScalar.noConfusion hc

/-- Witness for C8: the value parsed from a numeric line is not an
integer scalar. -/
theorem try_numeric_int_branch_unreachable_witness :
    ((("a").toList, try_numeric ("3").toList) : List Char × PyScalar).2 ≠ PyScalar.int 3 :=
  try_numeric_int_branch_unreachable.2 [("a = 3").toList]
    [(("a").toList, try_numeric ("3").toList)] (by decide) _ (by decide) 3

/-- C9: a values.txt line that is non-blank and does not contain
exactly one equals sign makes load_values raise ValueError, which is
not an IOError, so the driver does not catch it and the batch aborts. -/
theorem load_values_bad_line_aborts :
    ∀ (fs : FS) (dirname sec : String) (ls : List (List Char)) (line : List Char),
    fsRead fs (valuesPath dirname sec) = some ls →
    line ∈ ls → (pyStrip line).isEmpty = false → (pyStrip line).count '=' ≠ 1 →
    load_values fs dirname sec = Except.error PyErr.valueError
  ∧ PyErr.isIOError PyErr.valueError = false
  ∧ (∀ out rest,
      driver ((Except.error PyErr.valueError, out) :: rest) = Except.error PyErr.valueError) := by
  intro fs dirname sec ls line h1 h2 h3 h4
  refine ⟨?_, rfl, ?_⟩
  · unfold load_values
    rw [h1]
    exact load_values_lines_bad h2 h3 h4
  · intro out rest
    simp [driver, PyErr.isIOError]

/-- Witness for C9 on a two-separator line. -/
theorem load_values_bad_line_aborts_witness :
    load_values [((valuesPath "d" "s"), [("a=b=c").toList])] "d" "s"
      = Except.error PyErr.valueError :=
  (load_values_bad_line_aborts [((valuesPath "d" "s"), [("a=b=c").toList])] "d" "s"
    [("a=b=c").toList] ("a=b=c").toList (by decide) (by decide) (by decide) (by decide)).1

/-- C10: after all class statements execute, the registry holds
exactly the classes that are not a base of any class (each added on
creation, bases removed on subclassing), each exactly once, and the
abstract bases Plot, DistancePlot and CMBSpectrumPlot are absent, so
the driver never attempts them and attempts each registered plot
exactly once. -/
theorem registry_contains_exactly_leaves :
    (∀ c : PlotCls, c ∈ finalRegistry ↔ (c ∈ classDefs.map Prod.fst ∧ isBaseCls c = false))
  ∧ finalRegistry.Nodup
  ∧ (∀ c ∈ finalRegistry, finalRegistry.count c = 1)
  ∧ PlotCls.Plot ∉ finalRegistry
  ∧ PlotCls.DistancePlot ∉ finalRegistry
  ∧ PlotCls.CMBSpectrumPlot ∉ finalRegistry := by decide
